import Mathlib

/-!
Shallow embedding of the Agrinex backend recommendation pipeline
(backend/app/services: weather_service.py, crop_service.py,
irrigation_service.py), together with theorems settling the frozen
claims about it.

Numbers are modelled as rationals: the source manipulates short decimal
literals with comparisons, halving, division and two-decimal rounding,
for which rational arithmetic is the intended idealization. Python
strings are modelled as Lean strings; str.lower and str.strip are
re-implemented over the character list so that evaluation is
kernel-reducible. The two pre-trained classifier artifacts are opaque
in the source and appear here as parameters (record of functions whose
calls may fail, mirroring a raised exception). Network calls appear as
an Except parameter holding either the decoded provider payload or the
text of the raised exception.
-/

/-- Python str.lower, character by character (the data here is ASCII). -/
def pyLower (s : String) : String := String.mk (s.data.map Char.toLower)

/-- Python whitespace test used by str.strip. -/
def pySpaceChar (c : Char) : Bool :=
  c == ' ' || c == '\t' || c == '\n' || c == '\r' || c == '\x0b' || c == '\x0c'

/-- Python str.strip: remove leading and trailing whitespace. -/
def pyStrip (s : String) : String :=
  String.mk (((s.data.dropWhile pySpaceChar).reverse.dropWhile pySpaceChar).reverse)

/-- Python dict lookup d.get(k) for a dict keyed by pairs of strings,
modelled as an association list (all dicts embedded here have pairwise
distinct keys, so first match equals dict semantics). -/
def dictGet {β : Type} : List ((String × String) × β) → (String × String) → Option β
  | [], _ => none
  | (a, b) :: rest, k => if k = a then some b else dictGet rest k

/-- Python dict lookup d.get(k) for a dict keyed by strings. -/
def dictGetS {β : Type} : List (String × β) → String → Option β
  | [], _ => none
  | (a, b) :: rest, k => if k = a then some b else dictGetS rest k

/-- The hourly block of a decoded Open-Meteo response, the part of the
provider payload read by get_openmeteo_weather. -/
structure HourlyData where
  time : List String
  temperature_2m : List ℚ
  relative_humidity_2m : List ℚ
  precipitation : List ℚ
deriving DecidableEq

/-- The normalized weather dict returned by get_openmeteo_weather. -/
structure WeatherSnapshot where
  temperature : ℚ
  humidity : ℚ
  rain_24h : ℚ
  timestamp : String
  error : Option String
deriving DecidableEq

/-- Python list indexing l[-1]: the last element, raising IndexError on
an empty list (weather_service.py lines 30 and 31). -/
def lastOrIndexError (l : List ℚ) : Except String ℚ :=
  match l.getLast? with
  | some x => Except.ok x
  | none => Except.error "IndexError: list index out of range"

/-- Body of get_openmeteo_weather after a successful HTTP exchange:
extract the most recent temperature and humidity and sum the hourly
precipitation (weather_service.py lines 24 to 32). Any failure is the
text of the raised exception. -/
def parseWeather (d : HourlyData) : Except String (ℚ × ℚ × ℚ) :=
  match lastOrIndexError d.temperature_2m with
  | Except.error e => Except.error e
  | Except.ok temperature =>
    match lastOrIndexError d.relative_humidity_2m with
    | Except.error e => Except.error e
    | Except.ok humidity => Except.ok (temperature, humidity, d.precipitation.sum)

/-- The fallible part of get_openmeteo_weather: the HTTP call outcome
(ok payload, or the text of a transport-level exception such as a
timeout or a non-2xx status raised by raise_for_status) chained with
the response parsing. -/
def weatherPipeline (response : Except String HourlyData) : Except String (ℚ × ℚ × ℚ) :=
  match response with
  | Except.error e => Except.error e
  | Except.ok d => parseWeather d

/-- The fallback weather dict built in the except branch of
get_openmeteo_weather (weather_service.py lines 42 to 48). -/
def fallbackSnapshot (ts e : String) : WeatherSnapshot :=
  { temperature := 25.0, humidity := 60.0, rain_24h := 0.0, timestamp := ts, error := some e }

/-- weather_service.get_openmeteo_weather. The coordinate arguments of
the source only feed the HTTP request, which is abstracted into the
response parameter; ts stands for datetime.utcnow().isoformat(). -/
def get_openmeteo_weather (response : Except String HourlyData) (ts : String) : WeatherSnapshot :=
  match weatherPipeline response with
  | Except.ok (t, h, r) =>
      { temperature := t, humidity := h, rain_24h := r, timestamp := ts, error := none }
  | Except.error e => fallbackSnapshot ts e

/-- The static gazetteer table of weather_service.map_location_to_coords
(weather_service.py lines 57 to 241), transcribed entry for entry. -/
def location_map : List ((String × String) × (ℚ × ℚ)) := [
    (("chhattisgarh", "durg"), (21.1939, 81.2740)),
    (("chhattisgarh", "raipur"), (21.2514, 81.6296)),
    (("chhattisgarh", "bilaspur"), (22.0796, 82.1590)),
    (("chhattisgarh", "rajnandgaon"), (22.5596, 81.3089)),
    (("maharashtra", "pune"), (18.5204, 73.8567)),
    (("maharashtra", "mumbai"), (19.0760, 72.8777)),
    (("maharashtra", "nagpur"), (21.1458, 79.0882)),
    (("maharashtra", "aurangabad"), (19.8762, 75.3433)),
    (("maharashtra", "nashik"), (19.9975, 73.7898)),
    (("maharashtra", "kolhapur"), (16.7050, 74.2433)),
    (("delhi", "delhi"), (28.7041, 77.1025)),
    (("karnataka", "bangalore"), (12.9716, 77.5946)),
    (("karnataka", "bengaluru"), (12.9716, 77.5946)),
    (("karnataka", "belagavi"), (15.8497, 74.4977)),
    (("karnataka", "belgaum"), (15.8497, 74.4977)),
    (("karnataka", "ballari"), (15.1400, 76.6200)),
    (("karnataka", "bellary"), (15.1400, 76.6200)),
    (("karnataka", "dharwad"), (15.4589, 75.1342)),
    (("karnataka", "dharwar"), (15.4589, 75.1342)),
    (("karnataka", "hubballi"), (15.3647, 75.1240)),
    (("karnataka", "hubli"), (15.3647, 75.1240)),
    (("karnataka", "gulbarga"), (17.3265, 76.4304)),
    (("karnataka", "kalaburagi"), (17.3265, 76.4304)),
    (("karnataka", "tumkur"), (13.2173, 77.1145)),
    (("karnataka", "tumkuru"), (13.2173, 77.1145)),
    (("karnataka", "mysore"), (12.2958, 76.6394)),
    (("karnataka", "mysuru"), (12.2958, 76.6394)),
    (("karnataka", "mandya"), (12.5353, 76.8970)),
    (("karnataka", "hassan"), (13.3352, 75.9103)),
    (("karnataka", "chikmagalur"), (13.3181, 75.7708)),
    (("karnataka", "kodagu"), (12.3381, 75.7273)),
    (("karnataka", "coorg"), (12.3381, 75.7273)),
    (("karnataka", "udupi"), (13.3408, 74.7421)),
    (("karnataka", "dakshina kannada"), (12.6689, 75.3692)),
    (("karnataka", "mangalore"), (12.8658, 74.8440)),
    (("karnataka", "mangaluru"), (12.8658, 74.8440)),
    (("karnataka", "uttara kannada"), (14.4505, 74.6660)),
    (("karnataka", "chitradurga"), (14.2267, 75.6760)),
    (("karnataka", "chikballapur"), (13.4359, 77.7297)),
    (("karnataka", "kolar"), (13.1359, 78.1304)),
    (("karnataka", "ramanagara"), (12.7667, 77.2833)),
    (("karnataka", "davangere"), (14.4667, 75.9167)),
    (("karnataka", "davanagere"), (14.4667, 75.9167)),
    (("karnataka", "shimoga"), (13.9299, 75.5681)),
    (("karnataka", "shivamogga"), (13.9299, 75.5681)),
    (("karnataka", "vikarabad"), (16.9891, 77.1331)),
    (("karnataka", "yadgir"), (16.7669, 77.1391)),
    (("karnataka", "bagalkot"), (16.1703, 75.6667)),
    (("karnataka", "bijapur"), (16.8302, 75.7053)),
    (("karnataka", "vijayapura"), (16.8302, 75.7053)),
    (("tamil nadu", "chennai"), (13.0827, 80.2707)),
    (("tamil nadu", "coimbatore"), (11.0168, 76.9558)),
    (("tamil nadu", "madurai"), (9.9252, 78.1198)),
    (("tamil nadu", "salem"), (11.6643, 78.1460)),
    (("tamil nadu", "tiruppur"), (11.3889, 77.3411)),
    (("tamil nadu", "erode"), (11.3919, 77.7172)),
    (("tamil nadu", "trichy"), (10.7905, 78.7047)),
    (("tamil nadu", "thanjavur"), (10.7870, 79.1378)),
    (("telangana", "hyderabad"), (17.3850, 78.4867)),
    (("telangana", "warangal"), (17.9689, 79.5941)),
    (("telangana", "nizamabad"), (19.2705, 78.0945)),
    (("andhra pradesh", "visakhapatnam"), (17.6868, 83.2185)),
    (("andhra pradesh", "vijayawada"), (16.5062, 80.6480)),
    (("andhra pradesh", "tirupati"), (13.1939, 79.8941)),
    (("uttar pradesh", "lucknow"), (26.8467, 80.9462)),
    (("uttar pradesh", "kanpur"), (26.4499, 80.3319)),
    (("uttar pradesh", "varanasi"), (25.3176, 82.9739)),
    (("uttar pradesh", "agra"), (27.1767, 78.0081)),
    (("west bengal", "kolkata"), (22.5726, 88.3639)),
    (("west bengal", "darjeeling"), (27.0410, 88.2663)),
    (("west bengal", "siliguri"), (26.7271, 88.3953)),
    (("gujarat", "surat"), (21.1702, 72.8311)),
    (("gujarat", "ahmedabad"), (23.0225, 72.5714)),
    (("gujarat", "vadodara"), (22.3072, 73.1812)),
    (("gujarat", "rajkot"), (22.3039, 70.8022)),
    (("rajasthan", "jaipur"), (26.9124, 75.7873)),
    (("rajasthan", "jodhpur"), (26.2389, 73.0243)),
    (("rajasthan", "ajmer"), (26.4499, 74.6399)),
    (("rajasthan", "udaipur"), (24.5854, 73.7125)),
    (("madhya pradesh", "bhopal"), (23.2599, 77.4126)),
    (("madhya pradesh", "indore"), (22.7196, 75.8577)),
    (("madhya pradesh", "gwalior"), (26.2389, 78.1770)),
    (("madhya pradesh", "jabalpur"), (23.1815, 79.9864)),
    (("bihar", "patna"), (25.5941, 85.1376)),
    (("bihar", "gaya"), (24.7955, 84.9994)),
    (("bihar", "bhagalpur"), (25.2820, 86.4728)),
    (("haryana", "gurugram"), (28.4595, 77.0266)),
    (("haryana", "faridabad"), (28.4089, 77.3178)),
    (("haryana", "hisar"), (29.1461, 75.7337)),
    (("punjab", "ludhiana"), (30.9009, 75.8573)),
    (("punjab", "amritsar"), (31.6340, 74.8723)),
    (("punjab", "jalandhar"), (31.7260, 75.5762)),
    (("punjab", "chandigarh"), (30.7333, 76.7794)),
    (("odisha", "bhubaneswar"), (20.2961, 85.8245)),
    (("odisha", "cuttack"), (20.4625, 85.8830)),
    (("odisha", "rourkela"), (22.2271, 84.8537)),
    (("assam", "guwahati"), (26.1863, 91.7668)),
    (("assam", "dibrugarh"), (27.4728, 94.9119)),
    (("uttaranchal", "dehradun"), (30.3165, 78.0322)),
    (("uttarakhand", "dehradun"), (30.3165, 78.0322)),
    (("uttaranchal", "nainital"), (29.3804, 79.4608)),
    (("uttarakhand", "nainital"), (29.3804, 79.4608)),
    (("himachal pradesh", "shimla"), (31.1048, 77.1734)),
    (("himachal pradesh", "manali"), (32.2541, 77.1882)),
    (("himachal pradesh", "mandi"), (31.5885, 76.9386)),
    (("meghalaya", "shillong"), (25.5687, 91.8832)),
    (("tripura", "agartala"), (23.8317, 91.2868)),
    (("mizoram", "aizawl"), (23.7148, 92.7299)),
    (("nagaland", "kohima"), (25.6782, 94.1115)),
    (("arunachal pradesh", "itanagar"), (27.1767, 93.6926)),
    (("sikkim", "gangtok"), (27.7022, 88.5630)),
    (("kerala", "thiruvananthapuram"), (8.5241, 76.9366)),
    (("kerala", "kochi"), (9.9312, 76.2673)),
    (("kerala", "kozhikode"), (11.2588, 75.7804)),
    (("goa", "panaji"), (15.2993, 74.1240)),
    (("goa", "margao"), (15.2833, 73.9500)),
    (("puducherry", "pondicherry"), (11.9416, 79.8084)),
    (("jammu and kashmir", "srinagar"), (34.0837, 74.8070)),
    (("jammu and kashmir", "jammu"), (32.7266, 75.8472)),
    (("ladakh", "leh"), (34.1526, 77.5794)),
    (("ladakh", "kargil"), (34.5543, 76.1119)),
    (("andaman and nicobar islands", "port blair"), (11.7401, 92.7673))]

/-- weather_service.map_location_to_coords: normalize with strip and
lower, then look the key up, with the center of India as fallback. -/
def map_location_to_coords (state district : String) : ℚ × ℚ :=
  let key := (pyLower (pyStrip state), pyLower (pyStrip district))
  match dictGet location_map key with
  | some c => c
  | none => (20.0, 78.0)

/-- crop_service.CropService.SOIL_QUALITY_MAP; values are the (N, P, K)
requirement triples. -/
def SOIL_QUALITY_MAP : List (String × (ℚ × ℚ × ℚ)) :=
  [("Poor", (20, 10, 10)), ("Medium", (50, 25, 25)), ("Rich", (90, 40, 40))]

/-- crop_service.CropService.SOIL_TYPE_MAP: texture to pH estimate. -/
def SOIL_TYPE_MAP : List (String × ℚ) :=
  [("Sandy", 6.5), ("Loam", 7.0), ("Clay", 7.5), ("Red", 6.0),
   ("Black", 8.0), ("Laterite", 5.5), ("Alluvial", 7.2), ("Mixed", 6.8)]

/-- SOIL_QUALITY_MAP.get(soil_quality, SOIL_QUALITY_MAP of Medium):
crop_service.py lines 46 to 48. The Medium entry is (50, 25, 25). -/
def npkFor (soil_quality : String) : ℚ × ℚ × ℚ :=
  (dictGetS SOIL_QUALITY_MAP soil_quality).getD (50, 25, 25)

/-- SOIL_TYPE_MAP.get(soil_type, 7.0): crop_service.py line 49. -/
def phFor (soil_type : String) : ℚ :=
  (dictGetS SOIL_TYPE_MAP soil_type).getD 7.0

/-- The feature dict named sample in recommend_crops (crop_service.py
lines 60 to 69), in the field order the trained pipeline expects. -/
structure FeatureRow where
  n_req : ℚ
  p_req : ℚ
  k_req : ℚ
  temperature : ℚ
  humidity : ℚ
  ph : ℚ
  rainfall : ℚ
  state : String
deriving DecidableEq

/-- Assembly of the feature row: the rainfall feature is clamped to be
nonnegative at this consumption site, crop_service.py line 56. -/
def cropFeatureRow (npk : ℚ × ℚ × ℚ) (ph_val : ℚ) (weather : WeatherSnapshot)
    (state_name : String) : FeatureRow :=
  { n_req := npk.1, p_req := npk.2.1, k_req := npk.2.2,
    temperature := weather.temperature, humidity := weather.humidity,
    ph := ph_val, rainfall := max weather.rain_24h 0.0, state := state_name }

/-- The opaque crop classifier artifact: the probability row
predict_proba(df)[0] (the call may raise) and the classes attribute. -/
structure CropModel where
  predict_proba : FeatureRow → Except String (List ℚ)
  classes : List String

/-- Descending order on (label, probability) pairs, the sort key of
crop_probs.sort with reverse set (crop_service.py line 84). -/
def probGe (a b : String × ℚ) : Prop := b.2 ≤ a.2

instance : DecidableRel probGe := fun a b => inferInstanceAs (Decidable (b.2 ≤ a.2))

instance : IsTotal (String × ℚ) probGe := ⟨fun a b => le_total b.2 a.2⟩

instance : IsTrans (String × ℚ) probGe := ⟨fun _ _ _ h1 h2 => le_trans h2 h1⟩

/-- crop_service.py lines 80 to 88: pair each class label with its
probability, stable-sort descending by probability (the Python sort is
stable; insertion sort with this order is its standard model), keep the
first 5. -/
def cropRanking (classes : List String) (proba : List ℚ) : List (String × ℚ) :=
  (List.insertionSort probGe (classes.zip proba)).take 5

/-- The success payload of recommend_crops; soil_params is flattened
into the n_req, p_req, k_req and ph fields. -/
structure CropResult where
  recommended_crops : List (String × ℚ)
  soil_type : String
  soil_quality : String
  n_req : ℚ
  p_req : ℚ
  k_req : ℚ
  ph : ℚ
  weather : WeatherSnapshot
  state : String
  district : String
deriving DecidableEq

/-- crop_service.CropService.recommend_crops. The coordinates from
map_location_to_coords only feed the HTTP request abstracted into the
response parameter; a raised classifier exception becomes the tagged
failure dict of the except branch. -/
def recommend_crops (mdl : CropModel) (soil_type soil_quality state_name district_name : String)
    (response : Except String HourlyData) (ts : String) : Except String CropResult :=
  let npk := npkFor soil_quality
  let ph_val := phFor soil_type
  let weather := get_openmeteo_weather response ts
  let sample := cropFeatureRow npk ph_val weather state_name
  match mdl.predict_proba sample with
  | Except.error e => Except.error ("Crop recommendation failed: " ++ e)
  | Except.ok proba =>
      Except.ok { recommended_crops := cropRanking mdl.classes proba,
                  soil_type := soil_type, soil_quality := soil_quality,
                  n_req := npk.1, p_req := npk.2.1, k_req := npk.2.2,
                  ph := ph_val, weather := weather,
                  state := state_name, district := district_name }

/-- irrigation_service.SOIL_FEEL_MAP. -/
def SOIL_FEEL_MAP : List (String × ℚ) :=
  [("dry and crumbly", 0.2), ("slightly damp", 0.5), ("wet and muddy", 0.8)]

/-- SOIL_FEEL_MAP.get(soil_feel.lower(), 0.45), the moisture lookup at
irrigation_service.py line 49. -/
def soilFeelMoisture (soil_feel : String) : ℚ :=
  (dictGetS SOIL_FEEL_MAP (pyLower soil_feel)).getD 0.45

/-- irrigation_service.moisture_to_water_mm: the 4-tier step function. -/
def moisture_to_water_mm (moisture_mean : ℚ) : ℚ :=
  if moisture_mean < 0.3 then 20.0
  else if moisture_mean < 0.5 then 12.0
  else if moisture_mean < 0.7 then 5.0
  else 0.0

/-- Round half to even, the tie-break Python uses for round and for
format strings. -/
def roundEven (x : ℚ) : ℤ :=
  let f := ⌊x⌋
  let r := x - f
  if r < 1/2 then f else if r > 1/2 then f + 1 else if f % 2 = 0 then f else f + 1

/-- Python round(x, 2). -/
def round2 (q : ℚ) : ℚ := (roundEven (q * 100) : ℚ) / 100

/-- Python format spec .1f: one decimal digit, half-to-even rounding. -/
def fmt1 (q : ℚ) : String :=
  let scaled := roundEven (q * 10)
  let sign := if scaled < 0 then "-" else ""
  sign ++ toString (scaled.natAbs / 10) ++ "." ++ toString (scaled.natAbs % 10)

/-- Reason string of the heavy-rain branch (irrigation_service.py line 73). -/
def heavyRainReason : String := "Heavy rain expected (>10mm), skipping irrigation."

/-- Reason string of the no-rain branch (irrigation_service.py line 70). -/
def noRainReason : String := "No significant rain expected."

/-- Reason f-string of the moderate-rain branch (irrigation_service.py
line 76), with the forecast formatted to one decimal. -/
def moderateRainReason (forecast_rain_mm_24h : ℚ) : String :=
  "Moderate rain expected (" ++ fmt1 forecast_rain_mm_24h ++
    "mm), reducing irrigation by 50%."

/-- irrigation_service.py lines 70 to 76: adjust the base depth for the
rain forecast, producing the adjusted depth and the reason string. The
branch for a forecast above 10 is checked before the branch above 5. -/
def rainAdjust (base_mm forecast_rain_mm_24h : ℚ) : ℚ × String :=
  if forecast_rain_mm_24h > 10 then (0.0, heavyRainReason)
  else if forecast_rain_mm_24h > 5 then
    (base_mm * 0.5, moderateRainReason forecast_rain_mm_24h)
  else (base_mm, noRainReason)

/-- The opaque irrigation classifier artifact: the probability row
predict_proba(df)[0] and the binary prediction predict(df)[0]; either
call may raise. -/
structure IrrigationModel where
  predict_proba : List ℚ → Except String (List ℚ)
  predict : List ℚ → Except String Bool

/-- The five duplicated moisture features fed to the irrigation model
(irrigation_service.py lines 53 to 56). -/
def irrigationFeatures (soil_feel : String) : List ℚ :=
  let m := soilFeelMoisture soil_feel
  [m, m, m, m, m]

/-- The success payload of recommend_irrigation. -/
structure IrrigationRec where
  irrigate : Bool
  model_probability : ℚ
  moisture_level : ℚ
  water_mm : ℚ
  duration_hours : ℚ
  reason_weather : String
  application_rate_mm_per_h : ℚ
  soil_feel : String
deriving DecidableEq

/-- irrigation_service.recommend_irrigation. A raised classifier
exception becomes the tagged failure dict of the except branch; the
model probability is proba[1] when the row has more than one entry and
0.5 otherwise; water_mm and duration_hours are rounded to two
decimals. -/
def recommend_irrigation (mdl : IrrigationModel) (soil_feel : String)
    (application_rate_mm_per_h forecast_rain_mm_24h : ℚ) : Except String IrrigationRec :=
  let m := soilFeelMoisture soil_feel
  match mdl.predict_proba (irrigationFeatures soil_feel) with
  | Except.error e => Except.error ("Irrigation recommendation failed: " ++ e)
  | Except.ok proba =>
    match mdl.predict (irrigationFeatures soil_feel) with
    | Except.error e => Except.error ("Irrigation recommendation failed: " ++ e)
    | Except.ok pred =>
      let p_irrigate := proba.getD 1 0.5
      let adjusted := rainAdjust (moisture_to_water_mm m) forecast_rain_mm_24h
      let base_mm := adjusted.1
      let duration_h :=
        if application_rate_mm_per_h > 0 then base_mm / application_rate_mm_per_h else 0.0
      Except.ok { irrigate := pred && decide (base_mm > 0),
                  model_probability := p_irrigate,
                  moisture_level := m,
                  water_mm := round2 base_mm,
                  duration_hours := round2 duration_h,
                  reason_weather := adjusted.2,
                  application_rate_mm_per_h := application_rate_mm_per_h,
                  soil_feel := soil_feel }

/-- The forecast value the facade feeds into the rain policy:
irrigation_service.py line 112 reads rain_24h out of the weather dict
and line 118 passes it on without clamping. -/
def irrigationRainArg (weather : WeatherSnapshot) : ℚ := weather.rain_24h

/-- The response shapes of recommend_irrigation_with_weather. -/
inductive WeatherIrrigationResult where
  /-- A successful recommendation augmented with the weather, state and
  district keys. The code as written has no execution path producing
  this shape: see recommend_irrigation_with_weather below. -/
  | success (rec : IrrigationRec) (weather : WeatherSnapshot)
      (state district : String) : WeatherIrrigationResult
  /-- The failure dict of the inner recommend_irrigation, augmented with
  the weather, state and district keys before being returned. -/
  | innerFailure (error : String) (weather : WeatherSnapshot)
      (state district : String) : WeatherIrrigationResult
  /-- The failure dict built by the outer exception handler
  (irrigation_service.py lines 131 to 135). -/
  | outerFailure (error : String) : WeatherIrrigationResult
deriving DecidableEq

/-- The NameError text raised on the success path: irrigation_service.py
line 125 calls appwrite_service.log_irrigation, but the module never
imports or defines appwrite_service (its imports are joblib, numpy, os,
typing, pandas and two weather_service functions), so Python raises
NameError at that call. The real message quotes the name. -/
def appwriteNameError : String := "name appwrite_service is not defined"

/-- irrigation_service.recommend_irrigation_with_weather. When the inner
recommendation fails, its failure dict is augmented and returned; when
it succeeds, the logging call raises NameError (see appwriteNameError),
which the outer handler converts into its own failure dict, so the
successful recommendation is discarded. -/
def recommend_irrigation_with_weather (mdl : IrrigationModel) (soil_feel : String)
    (application_rate_mm_per_h : ℚ) (state_name district_name : String)
    (response : Except String HourlyData) (ts : String) : WeatherIrrigationResult :=
  let weather := get_openmeteo_weather response ts
  let rain_24h := irrigationRainArg weather
  match recommend_irrigation mdl soil_feel application_rate_mm_per_h rain_24h with
  | Except.error e =>
      WeatherIrrigationResult.innerFailure e weather state_name district_name
  | Except.ok _ =>
      WeatherIrrigationResult.outerFailure
        ("Weather-based irrigation recommendation failed: " ++ appwriteNameError)

/-- A concrete classifier stub for the concrete evaluations below:
probability row [0.3, 0.7], binary prediction true, on any input. -/
def demoModel : IrrigationModel :=
  { predict_proba := fun _ => Except.ok [0.3, 0.7],
    predict := fun _ => Except.ok true }

/-- A concrete crop classifier stub: probability row [0.1, 0.6, 0.3]
for the labels Wheat, Rice, Maize. -/
def demoCropModel : CropModel :=
  { predict_proba := fun _ => Except.ok [0.1, 0.6, 0.3],
    classes := ["Wheat", "Rice", "Maize"] }

/-- Output of recommend_irrigation with demoModel on slightly damp
soil, rate 4, forecast 15 (heavy rain zeroes the depth). -/
def rec15 : IrrigationRec :=
  { irrigate := false, model_probability := 0.7, moisture_level := 0.5,
    water_mm := 0, duration_hours := 0, reason_weather := heavyRainReason,
    application_rate_mm_per_h := 4, soil_feel := "slightly damp" }

/-- Output of recommend_irrigation with demoModel on dry and crumbly
soil, rate 4, forecast 7 (moderate rain halves the depth). -/
def recModerate : IrrigationRec :=
  { irrigate := true, model_probability := 0.7, moisture_level := 0.2,
    water_mm := 10, duration_hours := 2.5,
    reason_weather := moderateRainReason 7,
    application_rate_mm_per_h := 4, soil_feel := "dry and crumbly" }

/-- Output of recommend_irrigation with demoModel on slightly damp
soil, rate 4, forecast 0 (the fallback weather forecast). -/
def recC3 : IrrigationRec :=
  { irrigate := true, model_probability := 0.7, moisture_level := 0.5,
    water_mm := 5, duration_hours := 1.25, reason_weather := noRainReason,
    application_rate_mm_per_h := 4, soil_feel := "slightly damp" }

/-- Output of recommend_irrigation with demoModel on the unknown soil
description dry, rate 4, forecast 0: the moisture defaults to 0.45. -/
def recDry : IrrigationRec :=
  { irrigate := true, model_probability := 0.7, moisture_level := 0.45,
    water_mm := 12, duration_hours := 3, reason_weather := noRainReason,
    application_rate_mm_per_h := 4, soil_feel := "dry" }

/-- Output of recommend_irrigation with demoModel on WET AND MUDDY
soil (case-insensitive lookup), rate 4, forecast 0. -/
def recWet : IrrigationRec :=
  { irrigate := false, model_probability := 0.7, moisture_level := 0.8,
    water_mm := 0, duration_hours := 0, reason_weather := noRainReason,
    application_rate_mm_per_h := 4, soil_feel := "WET AND MUDDY" }

/-- Output of recommend_irrigation with demoModel on dry and crumbly
soil, rate 3, forecast 0: the exact quotient 20 / 3 is rounded. -/
def recThird : IrrigationRec :=
  { irrigate := true, model_probability := 0.7, moisture_level := 0.2,
    water_mm := 20, duration_hours := 6.67, reason_weather := noRainReason,
    application_rate_mm_per_h := 3, soil_feel := "dry and crumbly" }

/-- Output of recommend_irrigation with demoModel on the unknown soil
description dry, rate 0, forecast 0: zero rate gives zero duration. -/
def recRate0 : IrrigationRec :=
  { irrigate := true, model_probability := 0.7, moisture_level := 0.45,
    water_mm := 12, duration_hours := 0, reason_weather := noRainReason,
    application_rate_mm_per_h := 0, soil_feel := "dry" }

/-- Output of recommend_crops with demoCropModel on Loam, Medium soil
under the fallback weather. -/
def recCrops : CropResult :=
  { recommended_crops := [("Rice", 0.6), ("Maize", 0.3), ("Wheat", 0.1)],
    soil_type := "Loam", soil_quality := "Medium",
    n_req := 50, p_req := 25, k_req := 25, ph := 7.0,
    weather := fallbackSnapshot "t0" "ReadTimeout",
    state := "delhi", district := "delhi" }

/-! Shared helper lemmas. -/

/-- An association-list lookup misses exactly when the key is not among
the stored keys. -/
theorem dictGet_eq_none_of_not_mem {β : Type} (l : List ((String × String) × β))
    (k : String × String) (h : k ∉ l.map Prod.fst) : dictGet l k = none := by
  induction l with
  | nil => rfl
  | cons p rest ih =>
      obtain ⟨a, b⟩ := p
      simp only [List.map_cons, List.mem_cons] at h
      push_neg at h
      simpa [dictGet, h.1] using ih h.2

/-- The moisture estimate only takes the three table values or the
default. -/
theorem soilFeelMoisture_cases (s : String) :
    soilFeelMoisture s = 0.2 ∨ soilFeelMoisture s = 0.5 ∨
    soilFeelMoisture s = 0.8 ∨ soilFeelMoisture s = 0.45 := by
  simp only [soilFeelMoisture, SOIL_FEEL_MAP, dictGetS]
  split_ifs <;> simp

/-- Characterization of recommend_irrigation on inputs where both
classifier calls return: it produces exactly the record built from the
moisture estimate, the rain-adjusted step depth and the guarded
duration. -/
theorem recommend_irrigation_ok (mdl : IrrigationModel) (soil_feel : String)
    (rate rain : ℚ) (proba : List ℚ) (pred : Bool)
    (hp : mdl.predict_proba (irrigationFeatures soil_feel) = Except.ok proba)
    (hq : mdl.predict (irrigationFeatures soil_feel) = Except.ok pred) :
    recommend_irrigation mdl soil_feel rate rain = Except.ok
      { irrigate := pred && decide
          ((rainAdjust (moisture_to_water_mm (soilFeelMoisture soil_feel)) rain).1 > 0),
        model_probability := proba.getD 1 0.5,
        moisture_level := soilFeelMoisture soil_feel,
        water_mm := round2
          (rainAdjust (moisture_to_water_mm (soilFeelMoisture soil_feel)) rain).1,
        duration_hours := round2 (if rate > 0 then
          (rainAdjust (moisture_to_water_mm (soilFeelMoisture soil_feel)) rain).1 / rate
          else 0.0),
        reason_weather :=
          (rainAdjust (moisture_to_water_mm (soilFeelMoisture soil_feel)) rain).2,
        application_rate_mm_per_h := rate,
        soil_feel := soil_feel } := by
  simp only [recommend_irrigation, hp, hq]

/-- Rounding to two decimals is the identity on every depth the rain
adjustment can produce from a tier value. -/
theorem round2_rainAdjust (b : ℚ) (hb : b = 20 ∨ b = 12 ∨ b = 5 ∨ b = 0) (rain : ℚ) :
    round2 (rainAdjust b rain).1 =
      (if rain > 10 then 0 else if rain > 5 then b / 2 else b) := by
  rcases hb with h | h | h | h <;> subst h <;>
    simp only [rainAdjust] <;> split_ifs <;> norm_num [round2, roundEven]

/-- The step function only takes the four tier values. -/
theorem moisture_to_water_mm_cases (m : ℚ) :
    moisture_to_water_mm m = 20 ∨ moisture_to_water_mm m = 12 ∨
    moisture_to_water_mm m = 5 ∨ moisture_to_water_mm m = 0 := by
  simp only [moisture_to_water_mm]
  split_ifs <;> norm_num

/-- The three table rows and the default of the moisture lookup, on
representative concrete inputs. -/
theorem sfm_slightly_damp : soilFeelMoisture "slightly damp" = 0.5 := rfl

theorem sfm_dry_and_crumbly : soilFeelMoisture "dry and crumbly" = 0.2 := rfl

theorem sfm_wet_upper : soilFeelMoisture "WET AND MUDDY" = 0.8 := rfl

theorem sfm_dry : soilFeelMoisture "dry" = 0.45 := rfl

theorem npk_medium : npkFor "Medium" = (50, 25, 25) := rfl

theorem ph_loam : phFor "Loam" = 7.0 := rfl

/-- The weather gateway degrades a transport failure to the fallback
snapshot. -/
theorem eval_weather_timeout :
    get_openmeteo_weather (Except.error "ReadTimeout") "t0" =
      fallbackSnapshot "t0" "ReadTimeout" := rfl

theorem eval_rec15 :
    recommend_irrigation demoModel "slightly damp" 4 15 = Except.ok rec15 := by
  rw [recommend_irrigation_ok demoModel "slightly damp" 4 15 [0.3, 0.7] true rfl rfl]
  norm_num [rec15, sfm_slightly_damp, moisture_to_water_mm, rainAdjust, round2,
    roundEven, List.getD, decide_eq_false_iff_not]

theorem eval_recModerate :
    recommend_irrigation demoModel "dry and crumbly" 4 7 = Except.ok recModerate := by
  rw [recommend_irrigation_ok demoModel "dry and crumbly" 4 7 [0.3, 0.7] true rfl rfl]
  norm_num [recModerate, sfm_dry_and_crumbly, moisture_to_water_mm, rainAdjust, round2,
    roundEven, List.getD, decide_eq_true_eq]

theorem eval_recC3 :
    recommend_irrigation demoModel "slightly damp" 4
      (irrigationRainArg (fallbackSnapshot "t0" "ReadTimeout")) = Except.ok recC3 := by
  rw [recommend_irrigation_ok demoModel "slightly damp" 4 _ [0.3, 0.7] true rfl rfl]
  norm_num [recC3, sfm_slightly_damp, irrigationRainArg, fallbackSnapshot,
    moisture_to_water_mm, rainAdjust, round2, roundEven, List.getD, decide_eq_true_eq]

theorem eval_recDry :
    recommend_irrigation demoModel "dry" 4 0 = Except.ok recDry := by
  rw [recommend_irrigation_ok demoModel "dry" 4 0 [0.3, 0.7] true rfl rfl]
  norm_num [recDry, sfm_dry, moisture_to_water_mm, rainAdjust, round2,
    roundEven, List.getD, decide_eq_true_eq]

theorem eval_recWet :
    recommend_irrigation demoModel "WET AND MUDDY" 4 0 = Except.ok recWet := by
  rw [recommend_irrigation_ok demoModel "WET AND MUDDY" 4 0 [0.3, 0.7] true rfl rfl]
  norm_num [recWet, sfm_wet_upper, moisture_to_water_mm, rainAdjust, round2,
    roundEven, List.getD, decide_eq_false_iff_not]

theorem eval_recThird :
    recommend_irrigation demoModel "dry and crumbly" 3 0 = Except.ok recThird := by
  rw [recommend_irrigation_ok demoModel "dry and crumbly" 3 0 [0.3, 0.7] true rfl rfl]
  norm_num [recThird, sfm_dry_and_crumbly, moisture_to_water_mm, rainAdjust, round2,
    roundEven, List.getD, decide_eq_true_eq]

theorem eval_recRate0 :
    recommend_irrigation demoModel "dry" 0 0 = Except.ok recRate0 := by
  rw [recommend_irrigation_ok demoModel "dry" 0 0 [0.3, 0.7] true rfl rfl]
  norm_num [recRate0, sfm_dry, moisture_to_water_mm, rainAdjust, round2,
    roundEven, List.getD, decide_eq_true_eq]

theorem eval_recCrops :
    recommend_crops demoCropModel "Loam" "Medium" "delhi" "delhi"
      (Except.error "ReadTimeout") "t0" = Except.ok recCrops := by
  simp only [recommend_crops, demoCropModel, eval_weather_timeout, npk_medium, ph_loam]
  norm_num [recCrops, cropRanking, List.insertionSort, List.orderedInsert, probGe,
    List.zip, List.zipWith, fallbackSnapshot]

/-- Field characterization of any successful recommend_irrigation
result, without reference to the classifier outputs (the binary
prediction only reaches the irrigate flag). -/
theorem recommend_irrigation_fields (mdl : IrrigationModel) (soil_feel : String)
    (rate rain : ℚ) (rec : IrrigationRec)
    (hr : recommend_irrigation mdl soil_feel rate rain = Except.ok rec) :
    rec.moisture_level = soilFeelMoisture soil_feel
    ∧ rec.water_mm = round2
        (rainAdjust (moisture_to_water_mm (soilFeelMoisture soil_feel)) rain).1
    ∧ rec.duration_hours = round2 (if rate > 0 then
        (rainAdjust (moisture_to_water_mm (soilFeelMoisture soil_feel)) rain).1 / rate
        else 0.0)
    ∧ rec.reason_weather =
        (rainAdjust (moisture_to_water_mm (soilFeelMoisture soil_feel)) rain).2
    ∧ rec.application_rate_mm_per_h = rate
    ∧ ∃ pred : Bool, rec.irrigate = (pred && decide
        ((rainAdjust (moisture_to_water_mm (soilFeelMoisture soil_feel)) rain).1 > 0)) := by
  cases hp : mdl.predict_proba (irrigationFeatures soil_feel) with
  | error e => simp [recommend_irrigation, hp] at hr
  | ok proba =>
    cases hq : mdl.predict (irrigationFeatures soil_feel) with
    | error e => simp [recommend_irrigation, hp, hq] at hr
    | ok pred =>
      rw [recommend_irrigation_ok mdl soil_feel rate rain proba pred hp hq] at hr
      injection hr with h
      subst h
      exact ⟨rfl, rfl, rfl, rfl, rfl, pred, rfl⟩

/-- C1: whenever recommend_irrigation succeeds, the returned irrigate
flag is the conjunction of the classifier binary prediction and strict
positivity of the rain-adjusted water depth; in particular a zero
adjusted depth forces irrigate to be false whatever the prediction. -/
theorem C1_should_irrigate_conjunction (mdl : IrrigationModel) (soil_feel : String)
    (rate rain : ℚ) (proba : List ℚ) (pred : Bool) (rec : IrrigationRec)
    (hp : mdl.predict_proba (irrigationFeatures soil_feel) = Except.ok proba)
    (hq : mdl.predict (irrigationFeatures soil_feel) = Except.ok pred)
    (hr : recommend_irrigation mdl soil_feel rate rain = Except.ok rec) :
    rec.irrigate = (pred && decide
        ((rainAdjust (moisture_to_water_mm (soilFeelMoisture soil_feel)) rain).1 > 0))
    ∧ ((rainAdjust (moisture_to_water_mm (soilFeelMoisture soil_feel)) rain).1 = 0 →
        rec.irrigate = false) := by
  rw [recommend_irrigation_ok mdl soil_feel rate rain proba pred hp hq] at hr
  injection hr with h
  subst h
  refine ⟨rfl, fun h0 => ?_⟩
  simp [h0]

/-- Witness for C1 at a concrete input: heavy rain zeroes the depth, so
irrigate is false although the classifier predicted true. -/
theorem C1_witness :
    recommend_irrigation demoModel "slightly damp" 4 15 = Except.ok rec15
    ∧ (rec15.irrigate = (true && decide
        ((rainAdjust (moisture_to_water_mm (soilFeelMoisture "slightly damp")) 15).1 > 0))
      ∧ ((rainAdjust (moisture_to_water_mm (soilFeelMoisture "slightly damp")) 15).1 = 0 →
          rec15.irrigate = false)) :=
  ⟨eval_rec15, C1_should_irrigate_conjunction demoModel "slightly damp" 4 15 [0.3, 0.7]
      true rec15 rfl rfl eval_rec15⟩

/-- C2: the returned water depth is the 4-tier step function of the
moisture fraction adjusted by the rain policy, the heavy-rain branch
taking precedence over the moderate one, with the matching reasons. -/
theorem C2_water_depth_policy :
    (∀ m : ℚ,
      (m < 0.3 → moisture_to_water_mm m = 20)
      ∧ (0.3 ≤ m → m < 0.5 → moisture_to_water_mm m = 12)
      ∧ (0.5 ≤ m → m < 0.7 → moisture_to_water_mm m = 5)
      ∧ (0.7 ≤ m → moisture_to_water_mm m = 0))
    ∧ (∀ (mdl : IrrigationModel) (soil_feel : String) (rate rain : ℚ)
        (rec : IrrigationRec),
        recommend_irrigation mdl soil_feel rate rain = Except.ok rec →
        rec.water_mm = (if rain > 10 then 0
          else if rain > 5 then moisture_to_water_mm (soilFeelMoisture soil_feel) / 2
          else moisture_to_water_mm (soilFeelMoisture soil_feel))
        ∧ (rain > 10 → rec.reason_weather = heavyRainReason)
        ∧ (rain > 5 → rain ≤ 10 → rec.reason_weather = moderateRainReason rain)
        ∧ (rain ≤ 5 → rec.reason_weather = noRainReason)) := by
  constructor
  · intro m
    refine ⟨fun h1 => ?_, fun h1 h2 => ?_, fun h1 h2 => ?_, fun h1 => ?_⟩ <;>
      simp only [moisture_to_water_mm] <;> split_ifs <;> first | rfl | linarith
  · intro mdl soil_feel rate rain rec hr
    obtain ⟨-, hw, -, hre, -, -⟩ := recommend_irrigation_fields mdl soil_feel rate rain rec hr
    refine ⟨?_, fun h10 => ?_, fun h5 h10 => ?_, fun h5 => ?_⟩
    · rw [hw, round2_rainAdjust _ (moisture_to_water_mm_cases _) rain]
    · rw [hre, rainAdjust, if_pos h10]
    · rw [hre, rainAdjust, if_neg (by linarith), if_pos h5]
    · rw [hre, rainAdjust, if_neg (by linarith), if_neg (by linarith)]

/-- Witness for C2 at a concrete input: a forecast of 7mm halves the
20mm tier to 10mm with the moderate-rain reason. -/
theorem C2_witness :
    recommend_irrigation demoModel "dry and crumbly" 4 7 = Except.ok recModerate
    ∧ (recModerate.water_mm = (if (7:ℚ) > 10 then 0
        else if (7:ℚ) > 5 then moisture_to_water_mm (soilFeelMoisture "dry and crumbly") / 2
        else moisture_to_water_mm (soilFeelMoisture "dry and crumbly"))
      ∧ ((7:ℚ) > 10 → recModerate.reason_weather = heavyRainReason)
      ∧ ((7:ℚ) > 5 → (7:ℚ) ≤ 10 → recModerate.reason_weather = moderateRainReason 7)
      ∧ ((7:ℚ) ≤ 5 → recModerate.reason_weather = noRainReason)) :=
  ⟨eval_recModerate,
   C2_water_depth_policy.2 demoModel "dry and crumbly" 4 7 recModerate eval_recModerate⟩

/-- C3 (code bug): on an input where the inner recommendation succeeds,
the facade returns the outer failure dict carrying the NameError text
instead of the successful recommendation. The name appwrite_service is
unbound in irrigation_service.py, so the logging call guarded by the
success flag raises, and the outer handler replaces the whole result
with a failure dict, contradicting the absorbed-persistence-failure
policy of the spec. -/
theorem C3_persistence_failure_not_absorbed :
    recommend_irrigation demoModel "slightly damp" 4
        (irrigationRainArg (get_openmeteo_weather (Except.error "ReadTimeout") "t0"))
      = Except.ok recC3
    ∧ recommend_irrigation_with_weather demoModel "slightly damp" 4 "delhi" "delhi"
        (Except.error "ReadTimeout") "t0"
      = WeatherIrrigationResult.outerFailure
          ("Weather-based irrigation recommendation failed: " ++ appwriteNameError) := by
  have h1 : recommend_irrigation demoModel "slightly damp" 4
      (irrigationRainArg (get_openmeteo_weather (Except.error "ReadTimeout") "t0"))
      = Except.ok recC3 := by
    rw [eval_weather_timeout]; exact eval_recC3
  refine ⟨h1, ?_⟩
  simp only [recommend_irrigation_with_weather, h1]

/-- C4: any exception in the transport or parsing stage of the weather
fetch yields the fallback snapshot with temperature 25.0, humidity
60.0, rain 0.0, the timestamp and the error note set; the gateway is a
total function, so no exception reaches the caller. -/
theorem C4_weather_fallback (response : Except String HourlyData) (ts e : String)
    (h : weatherPipeline response = Except.error e) :
    get_openmeteo_weather response ts =
      { temperature := 25.0, humidity := 60.0, rain_24h := 0.0,
        timestamp := ts, error := some e } := by
  simp only [get_openmeteo_weather, h]
  rfl

/-- Witness for C4: a simulated provider timeout degrades to the
fallback snapshot. -/
theorem C4_witness :
    weatherPipeline (Except.error "ReadTimeout") = Except.error "ReadTimeout"
    ∧ get_openmeteo_weather (Except.error "ReadTimeout") "t0" =
      { temperature := 25.0, humidity := 60.0, rain_24h := 0.0,
        timestamp := "t0", error := some "ReadTimeout" } :=
  ⟨rfl, C4_weather_fallback (Except.error "ReadTimeout") "t0" "ReadTimeout" rfl⟩

/-- C5: the gazetteer trims and lowercases its input, returns the fixed
fallback (20.0, 78.0) on every key absent from the table without ever
raising, and resolves the bangalore and bengaluru aliases to the same
coordinate (12.9716, 77.5946), also under different case and
surrounding whitespace. -/
theorem C5_gazetteer_total_with_fallback :
    (∀ state district : String,
      (pyLower (pyStrip state), pyLower (pyStrip district)) ∉ location_map.map Prod.fst →
      map_location_to_coords state district = (20.0, 78.0))
    ∧ map_location_to_coords "karnataka" "bangalore" = (12.9716, 77.5946)
    ∧ map_location_to_coords "karnataka" "bengaluru" = (12.9716, 77.5946)
    ∧ map_location_to_coords " Karnataka " "BANGALORE" = (12.9716, 77.5946) := by
  refine ⟨fun state district h => ?_, rfl, rfl, rfl⟩
  simp only [map_location_to_coords]
  rw [dictGet_eq_none_of_not_mem location_map _ h]

/-- Witness for C5: an unknown pair resolves to the fallback. -/
theorem C5_witness :
    (pyLower (pyStrip "Atlantis"), pyLower (pyStrip "Nowhere")) ∉ location_map.map Prod.fst
    ∧ map_location_to_coords "Atlantis" "Nowhere" = (20.0, 78.0) :=
  ⟨by decide, C5_gazetteer_total_with_fallback.1 "Atlantis" "Nowhere" (by decide)⟩

/-- C6: recommend_crops pairs each probability with its class label,
sorts the pairs in descending order of probability (as the first 5
elements of a sorted permutation of the zipped pairs), and the concrete
example [0.1, 0.6, 0.3] over Wheat, Rice, Maize comes out as Rice,
Maize, Wheat. -/
theorem C6_crop_ranking :
    (∀ (classes : List String) (proba : List ℚ),
      ∃ ranked : List (String × ℚ),
        ranked.Perm (classes.zip proba)
        ∧ ranked.Sorted probGe
        ∧ cropRanking classes proba = ranked.take 5)
    ∧ (∀ (mdl : CropModel) (soil_type soil_quality state district : String)
        (response : Except String HourlyData) (ts : String)
        (proba : List ℚ) (rec : CropResult),
        mdl.predict_proba (cropFeatureRow (npkFor soil_quality) (phFor soil_type)
            (get_openmeteo_weather response ts) state) = Except.ok proba →
        recommend_crops mdl soil_type soil_quality state district response ts
          = Except.ok rec →
        rec.recommended_crops = cropRanking mdl.classes proba)
    ∧ cropRanking ["Wheat", "Rice", "Maize"] [0.1, 0.6, 0.3]
      = [("Rice", 0.6), ("Maize", 0.3), ("Wheat", 0.1)] := by
  refine ⟨fun classes proba => ?_, fun mdl st sq s d response ts proba rec hp hr => ?_, ?_⟩
  · exact ⟨List.insertionSort probGe (classes.zip proba),
      List.perm_insertionSort probGe _, List.sorted_insertionSort probGe _, rfl⟩
  · simp only [recommend_crops, hp] at hr
    injection hr with h
    subst h
    rfl
  · norm_num [cropRanking, List.insertionSort, List.orderedInsert, probGe,
      List.zip, List.zipWith]

/-- Witness for C6 on the concrete example model. -/
theorem C6_witness :
    demoCropModel.predict_proba (cropFeatureRow (npkFor "Medium") (phFor "Loam")
        (get_openmeteo_weather (Except.error "ReadTimeout") "t0") "delhi")
      = Except.ok [0.1, 0.6, 0.3]
    ∧ recommend_crops demoCropModel "Loam" "Medium" "delhi" "delhi"
        (Except.error "ReadTimeout") "t0" = Except.ok recCrops
    ∧ recCrops.recommended_crops = cropRanking demoCropModel.classes [0.1, 0.6, 0.3] :=
  ⟨rfl, eval_recCrops,
   C6_crop_ranking.2.1 demoCropModel "Loam" "Medium" "delhi" "delhi"
     (Except.error "ReadTimeout") "t0" [0.1, 0.6, 0.3] recCrops rfl eval_recCrops⟩

/-- C7 counterexample: the moisture table key is the phrase dry and
crumbly, not the word dry; for the input dry the moisture defaults to
0.45 instead of the 0.2 the claim ascribes to it. -/
theorem C7_counterexample :
    recommend_irrigation demoModel "dry" 4 0 = Except.ok recDry
    ∧ recDry.moisture_level = 0.45
    ∧ (0.45 : ℚ) ≠ 0.2 :=
  ⟨eval_recDry, rfl, by norm_num⟩

/-- C7 amended: the moisture estimate used by recommend_irrigation is
the case-insensitive 3-entry lookup with keys dry and crumbly (0.2),
slightly damp (0.5), wet and muddy (0.8), and every other description
defaults to 0.45 without error. -/
theorem C7_amended_moisture_lookup :
    (∀ (mdl : IrrigationModel) (soil_feel : String) (rate rain : ℚ)
        (rec : IrrigationRec),
      recommend_irrigation mdl soil_feel rate rain = Except.ok rec →
      rec.moisture_level = soilFeelMoisture soil_feel)
    ∧ (∀ s : String,
        (pyLower s = "dry and crumbly" → soilFeelMoisture s = 0.2)
        ∧ (pyLower s = "slightly damp" → soilFeelMoisture s = 0.5)
        ∧ (pyLower s = "wet and muddy" → soilFeelMoisture s = 0.8)
        ∧ (pyLower s ≠ "dry and crumbly" → pyLower s ≠ "slightly damp" →
            pyLower s ≠ "wet and muddy" → soilFeelMoisture s = 0.45)) := by
  constructor
  · intro mdl soil_feel rate rain rec hr
    exact (recommend_irrigation_fields mdl soil_feel rate rain rec hr).1
  · intro s
    refine ⟨fun h => ?_, fun h => ?_, fun h => ?_, fun h1 h2 h3 => ?_⟩
    · unfold soilFeelMoisture; rw [h]; rfl
    · unfold soilFeelMoisture; rw [h]; rfl
    · unfold soilFeelMoisture; rw [h]; rfl
    · unfold soilFeelMoisture SOIL_FEEL_MAP
      simp only [dictGetS]
      rw [if_neg h1, if_neg h2, if_neg h3]
      rfl

/-- Witness for C7 amended: the lookup is case-insensitive and feeds
the moisture field of the recommendation. -/
theorem C7_witness :
    recommend_irrigation demoModel "WET AND MUDDY" 4 0 = Except.ok recWet
    ∧ recWet.moisture_level = soilFeelMoisture "WET AND MUDDY"
    ∧ pyLower "WET AND MUDDY" = "wet and muddy"
    ∧ soilFeelMoisture "WET AND MUDDY" = 0.8 :=
  ⟨eval_recWet,
   C7_amended_moisture_lookup.1 demoModel "WET AND MUDDY" 4 0 recWet eval_recWet,
   rfl,
   (C7_amended_moisture_lookup.2 "WET AND MUDDY").2.2.1 rfl⟩

/-- C8 counterexample: the facade passes a negative precipitation value
into the rain policy unclamped, so the value consumed there is not
nonnegative. -/
theorem C8_counterexample :
    irrigationRainArg
      { temperature := 25.0, humidity := 60.0, rain_24h := -1,
        timestamp := "t0", error := none } = -1
    ∧ ¬ (0 ≤ (-1 : ℚ)) :=
  ⟨rfl, by norm_num⟩

/-- C8 amended: the nonnegativity clamp on the consumed precipitation
sits at the crop consumption site (the rainfall feature is the maximum
of rain_24h and 0, hence nonnegative), while the irrigation facade
passes rain_24h through unclamped. -/
theorem C8_amended_clamp_at_crop_site :
    (∀ (npk : ℚ × ℚ × ℚ) (ph_val : ℚ) (w : WeatherSnapshot) (st : String),
      (cropFeatureRow npk ph_val w st).rainfall = max w.rain_24h 0.0
      ∧ 0 ≤ (cropFeatureRow npk ph_val w st).rainfall)
    ∧ (∀ w : WeatherSnapshot, irrigationRainArg w = w.rain_24h) := by
  refine ⟨fun npk ph_val w st => ⟨rfl, ?_⟩, fun w => rfl⟩
  calc (0:ℚ) ≤ 0.0 := by norm_num
    _ ≤ max w.rain_24h 0.0 := le_max_right _ _

/-- C9 counterexample: at depth 20mm and rate 3mm/h the returned
duration is the two-decimal rounding 6.67, not the exact quotient
20 / 3. -/
theorem C9_counterexample :
    recommend_irrigation demoModel "dry and crumbly" 3 0 = Except.ok recThird
    ∧ recThird.duration_hours = 6.67
    ∧ (6.67 : ℚ) ≠ 20 / 3 :=
  ⟨eval_recThird, rfl, by norm_num⟩

/-- C9 amended: the returned duration is the quotient of the adjusted
depth by the application rate rounded to two decimals when the rate is
positive, and 0.0 when the rate is nonpositive; the guard means no
division fault is ever raised. -/
theorem C9_amended_duration (mdl : IrrigationModel) (soil_feel : String)
    (rate rain : ℚ) (rec : IrrigationRec)
    (hr : recommend_irrigation mdl soil_feel rate rain = Except.ok rec) :
    rec.duration_hours = round2 (if rate > 0 then
        (rainAdjust (moisture_to_water_mm (soilFeelMoisture soil_feel)) rain).1 / rate
        else 0.0)
    ∧ (rate ≤ 0 → rec.duration_hours = 0) := by
  obtain ⟨-, -, hd, -, -, -⟩ := recommend_irrigation_fields mdl soil_feel rate rain rec hr
  refine ⟨hd, fun hle => ?_⟩
  rw [hd, if_neg (not_lt.mpr hle)]
  norm_num [round2, roundEven]

/-- Witness for C9 amended: depth 12mm at rate 4mm/h gives 3.0 hours,
and rate 0 gives duration 0. -/
theorem C9_witness :
    recommend_irrigation demoModel "dry" 4 0 = Except.ok recDry
    ∧ recDry.duration_hours = round2 (if (4:ℚ) > 0 then
        (rainAdjust (moisture_to_water_mm (soilFeelMoisture "dry")) 0).1 / 4 else 0.0)
    ∧ recDry.duration_hours = 3
    ∧ recommend_irrigation demoModel "dry" 0 0 = Except.ok recRate0
    ∧ recRate0.duration_hours = 0 :=
  ⟨eval_recDry, (C9_amended_duration demoModel "dry" 4 0 recDry eval_recDry).1, rfl,
   eval_recRate0, (C9_amended_duration demoModel "dry" 0 0 recRate0 eval_recRate0).2 le_rfl⟩

/-- C10: the soil-quality and soil-type lookups of recommend_crops are
case-sensitive exact-match lookups: any quality other than the three
capitalized keys (including rich in lowercase) silently gets the Medium
triple (50, 25, 25), and any texture other than the eight capitalized
keys (including clay in lowercase) silently gets pH 7.0; the chosen
values are the ones echoed in the result. -/
theorem C10_case_sensitive_soil_lookups :
    (∀ q : String, q ≠ "Poor" → q ≠ "Medium" → q ≠ "Rich" → npkFor q = (50, 25, 25))
    ∧ npkFor "rich" = (50, 25, 25)
    ∧ (∀ t : String, t ≠ "Sandy" → t ≠ "Loam" → t ≠ "Clay" → t ≠ "Red" → t ≠ "Black" →
        t ≠ "Laterite" → t ≠ "Alluvial" → t ≠ "Mixed" → phFor t = 7.0)
    ∧ phFor "clay" = 7.0
    ∧ (∀ (mdl : CropModel) (soil_type soil_quality state district : String)
        (response : Except String HourlyData) (ts : String) (rec : CropResult),
        recommend_crops mdl soil_type soil_quality state district response ts
          = Except.ok rec →
        rec.n_req = (npkFor soil_quality).1 ∧ rec.p_req = (npkFor soil_quality).2.1
        ∧ rec.k_req = (npkFor soil_quality).2.2 ∧ rec.ph = phFor soil_type) := by
  refine ⟨fun q h1 h2 h3 => ?_, rfl,
    fun t h1 h2 h3 h4 h5 h6 h7 h8 => ?_, rfl,
    fun mdl st sq s d response ts rec hr => ?_⟩
  · unfold npkFor SOIL_QUALITY_MAP
    simp only [dictGetS]
    rw [if_neg h1, if_neg h2, if_neg h3]
    rfl
  · unfold phFor SOIL_TYPE_MAP
    simp only [dictGetS]
    rw [if_neg h1, if_neg h2, if_neg h3, if_neg h4, if_neg h5, if_neg h6,
      if_neg h7, if_neg h8]
    rfl
  · cases hp : mdl.predict_proba (cropFeatureRow (npkFor sq) (phFor st)
        (get_openmeteo_weather response ts) s) with
    | error e => simp [recommend_crops, hp] at hr
    | ok proba =>
      simp only [recommend_crops, hp] at hr
      injection hr with h
      subst h
      exact ⟨rfl, rfl, rfl, rfl⟩

/-- Witness for C10: lowercase variants fall back silently, and the
echoed values agree with the lookups. -/
theorem C10_witness :
    npkFor "loamy" = (50, 25, 25)
    ∧ phFor "sandy" = 7.0
    ∧ recommend_crops demoCropModel "Loam" "Medium" "delhi" "delhi"
        (Except.error "ReadTimeout") "t0" = Except.ok recCrops
    ∧ (recCrops.n_req = (npkFor "Medium").1 ∧ recCrops.p_req = (npkFor "Medium").2.1
      ∧ recCrops.k_req = (npkFor "Medium").2.2 ∧ recCrops.ph = phFor "Loam") :=
  ⟨C10_case_sensitive_soil_lookups.1 "loamy" (by decide) (by decide) (by decide),
   C10_case_sensitive_soil_lookups.2.2.1 "sandy" (by decide) (by decide) (by decide)
     (by decide) (by decide) (by decide) (by decide) (by decide),
   eval_recCrops,
   C10_case_sensitive_soil_lookups.2.2.2.2 demoCropModel "Loam" "Medium" "delhi" "delhi"
     (Except.error "ReadTimeout") "t0" recCrops eval_recCrops⟩
